import Mathlib

/-!
Verification of the brcmfmac_iovar vendor-command tool (src/brcmfmac_iovar.c).

Modelling choices (shallow embedding):
- Bytes are `Nat` values below 256; buffers are `List Nat`.
- Machine integers are `Nat`/`Int`; the one place the source narrows a wide
  value into a 32-bit signed integer (the `(int32_t)` conversions feeding the
  header `len` field) is modelled explicitly by `int32ofNat` with a `% 2 ^ 32`
  wrap followed by a two's-complement reinterpretation.
- The libnl receive machinery is abstracted as an environment-supplied stream
  of event batches: one inner list models the messages processed by a single
  nl_recvmsgs call (processing stops early when a handler returns NL_STOP),
  and the outer list models successive pump calls of the
  `while (resp->error == -EINPROGRESS)` loop in send_vendor_cmd.
- malloc success or failure inside response_handler is an environment input,
  carried as the `allocOk` flag of a valid-message event.
- The out-parameter of get_iovar_int is modelled by `Except`: a value is
  written back exactly when the result is `Except.ok`.
-/

namespace BrcmfIovar

/-- errno constant ENOMEM (12 on Linux). -/
def ENOMEM : Int := 12

/-- errno constant ENODATA (61 on Linux). -/
def ENODATA : Int := 61

/-- errno constant EINPROGRESS (115 on Linux). -/
def EINPROGRESS : Int := 115

/-- Firmware command id for reading an iovar (fwil.h, line 89 of the source). -/
def BRCMF_C_GET_VAR : Nat := 262

/-- Firmware command id for writing an iovar (line 90 of the source). -/
def BRCMF_C_SET_VAR : Nat := 263

/-- Nested vendor-response attribute id carrying a chunk length (line 94). -/
def BRCMF_NLATTR_LEN : Nat := 1

/-- Nested vendor-response attribute id carrying the response bytes (line 95). -/
def BRCMF_NLATTR_DATA : Nat := 2

/-- struct brcmf_vndr_dcmd_hdr (lines 106-112): five 4-byte fields, no padding.
`len` is the only signed field (`int32_t len`). -/
structure brcmf_vndr_dcmd_hdr where
  cmd : Nat
  len : Int
  offset : Nat
  set : Nat
  magic : Nat
deriving Repr, DecidableEq

/-- sizeof(struct brcmf_vndr_dcmd_hdr): five packed 32-bit fields, 20 bytes. -/
def hdrSize : Nat := 20

/-- struct iovar_response (lines 117-121). The `data` pointer is `none` when
NULL; `len` and `error` mirror the C fields. -/
structure iovar_response where
  data : Option (List Nat)
  len : Nat
  error : Int
deriving Repr, DecidableEq

/-- A nested netlink attribute inside NL80211_ATTR_VENDOR_DATA: its type tag
(as returned by nla_type) and its payload bytes (nla_data / nla_len). -/
structure NlAttr where
  typ : Nat
  payload : List Nat
deriving Repr, DecidableEq

/-- One netlink message as seen by the registered callbacks:
an error message (nlmsgerr with its signed code), an ack, a dump-finish, or a
valid message. A valid message carries the parsed nested attribute list of
NL80211_ATTR_VENDOR_DATA when that attribute is present, and the `allocOk`
flag records whether the malloc inside response_handler succeeds. -/
inductive NlEvent where
  | error (code : Int)
  | ack
  | finish
  | valid (vendorData : Option (List NlAttr)) (allocOk : Bool)
deriving Repr, DecidableEq

/-- Callback return value: NL_STOP ends the current nl_recvmsgs batch,
NL_SKIP moves on to the next message of the batch. -/
inductive CbRet where
  | stop
  | skip
deriving Repr, DecidableEq

/-- error_handler (lines 126-133): record the signaled code, NL_STOP. -/
def error_handler (code : Int) (resp : iovar_response) : iovar_response × CbRet :=
  ({ resp with error := code }, CbRet.stop)

/-- finish_handler (lines 138-144): mark success, NL_SKIP. -/
def finish_handler (resp : iovar_response) : iovar_response × CbRet :=
  ({ resp with error := 0 }, CbRet.skip)

/-- ack_handler (lines 149-155): mark success unconditionally, NL_STOP. -/
def ack_handler (resp : iovar_response) : iovar_response × CbRet :=
  ({ resp with error := 0 }, CbRet.stop)

/-- The nla_for_each_nested loop of response_handler (lines 187-198): scan the
nested attributes in order; at the first one whose type is BRCMF_NLATTR_DATA,
record its length and assign the malloc result to the data field
unconditionally - the copied bytes when malloc succeeded, NULL when it failed
(which also sets the error to -ENOMEM) - then break. A failed allocation
therefore clears any previously stored buffer, exactly as
`resp->data = malloc(resp->len)` does. Later attributes are ignored. -/
def copyFirstData : List NlAttr → Bool → iovar_response → iovar_response
  | [], _, resp => resp
  | a :: rest, allocOk, resp =>
    if a.typ = BRCMF_NLATTR_DATA then
      if allocOk then
        { resp with len := a.payload.length, data := some a.payload }
      else
        { resp with len := a.payload.length, data := none, error := -ENOMEM }
    else
      copyFirstData rest allocOk resp

/-- response_handler (lines 165-201): missing NL80211_ATTR_VENDOR_DATA sets
-ENODATA; otherwise the nested scan runs. Always returns NL_SKIP. -/
def response_handler (vendorData : Option (List NlAttr)) (allocOk : Bool)
    (resp : iovar_response) : iovar_response × CbRet :=
  match vendorData with
  | none => ({ resp with error := -ENODATA }, CbRet.skip)
  | some attrs => (copyFirstData attrs allocOk resp, CbRet.skip)

/-- Dispatch of one incoming message to the callback registered for its kind
(nl_cb_err / NL_CB_FINISH / NL_CB_ACK / NL_CB_VALID, lines 310-313). -/
def handleEvent : NlEvent → iovar_response → iovar_response × CbRet
  | NlEvent.error code, resp => error_handler code resp
  | NlEvent.ack, resp => ack_handler resp
  | NlEvent.finish, resp => finish_handler resp
  | NlEvent.valid vd ok, resp => response_handler vd ok resp

/-- The response state right after `memset(resp, 0, ...)` and
`resp->error = -EINPROGRESS` (lines 237-238). -/
def initResponse : iovar_response := { data := none, len := 0, error := -EINPROGRESS }

/-- One nl_recvmsgs call: process the batch of queued messages in order,
stopping early when a handler returns NL_STOP. Also returns the list of
messages that were actually handed to a callback. -/
def recvBatchP : List NlEvent → iovar_response → iovar_response × List NlEvent
  | [], resp => (resp, [])
  | e :: rest, resp =>
    match (handleEvent e resp).2 with
    | CbRet.stop => ((handleEvent e resp).1, [e])
    | CbRet.skip =>
      ((recvBatchP rest (handleEvent e resp).1).1,
       e :: (recvBatchP rest (handleEvent e resp).1).2)

/-- State reached after one nl_recvmsgs call. -/
def recvBatch (batch : List NlEvent) (resp : iovar_response) : iovar_response :=
  (recvBatchP batch resp).1

/-- The receive loop of send_vendor_cmd (lines 324-326): keep pumping
nl_recvmsgs while the error code is still -EINPROGRESS. The outer list is the
stream of batches the kernel makes available; if it is exhausted while still
in progress the C program would block, and the model returns the pending
state. Also returns the messages processed across all pumps. -/
def recvLoopP : List (List NlEvent) → iovar_response → iovar_response × List NlEvent
  | [], resp => (resp, [])
  | b :: rest, resp =>
    if resp.error = -EINPROGRESS then
      ((recvLoopP rest (recvBatchP b resp).1).1,
       (recvBatchP b resp).2 ++ (recvLoopP rest (recvBatchP b resp).1).2)
    else (resp, [])

/-- State reached when the receive loop stops pumping. -/
def recvLoop (batches : List (List NlEvent)) (resp : iovar_response) : iovar_response :=
  (recvLoopP batches resp).1

/-- Little-endian byte image of the low 32 bits of a natural number, as laid
out in memory for a uint32_t field on the little-endian target. -/
def le32 (n : Nat) : List Nat :=
  [n % 256, n / 256 % 256, n / 65536 % 256, n / 16777216 % 256]

/-- Little-endian byte image of an int32_t value (two's complement). -/
def le32i (z : Int) : List Nat := le32 (z % 2 ^ 32).toNat

/-- Reinterpret an unsigned 32-bit value as a two's-complement int32_t. -/
def toInt32 (u : Nat) : Int :=
  if u < 2 ^ 31 then (u : Int) else (u : Int) - 2 ^ 32

/-- The C conversion `(int32_t)n` of an unsigned wide value. -/
def int32ofNat (n : Nat) : Int := toInt32 (n % 2 ^ 32)

/-- First four buffer bytes read as a little-endian unsigned 32-bit integer,
exactly what `memcpy(value, resp.data, sizeof(uint32_t))` produces on the
little-endian target. Out-of-range indices contribute the default 0, so the
function is total and never reads past the end of the list. -/
def unle32 (bs : List Nat) : Nat :=
  bs.getD 0 0 + 256 * bs.getD 1 0 + 65536 * bs.getD 2 0 + 16777216 * bs.getD 3 0

/-- The header value built in send_vendor_cmd (lines 276-281): cmd and the
requested return length are caller-supplied, offset is sizeof(hdr), set is the
C truth value of is_set, magic is zero. -/
def mkHdr (cmd : Nat) (is_set : Nat) (ret_len : Int) : brcmf_vndr_dcmd_hdr :=
  { cmd := cmd
    len := ret_len
    offset := hdrSize
    set := if is_set ≠ 0 then 1 else 0
    magic := 0 }

/-- memcpy of the header struct into the vendor data blob (line 283): the five
fields in declaration order, each as four little-endian bytes. -/
def packHdr (h : brcmf_vndr_dcmd_hdr) : List Nat :=
  le32 h.cmd ++ le32i h.len ++ le32 h.offset ++ le32 h.set ++ le32 h.magic

/-- Modelled from the spec: the receiving side's reading of the 20-byte header
(the decoder lives in the kernel, outside this repository; spec section 8
states the byte-exact round-trip law that defines it). Reads the five fields
in order, four little-endian bytes each, the second as two's complement. -/
def unpackHdr : List Nat → brcmf_vndr_dcmd_hdr
  | c0 :: c1 :: c2 :: c3 ::
    l0 :: l1 :: l2 :: l3 ::
    o0 :: o1 :: o2 :: o3 ::
    s0 :: s1 :: s2 :: s3 ::
    m0 :: m1 :: m2 :: m3 :: _ =>
    { cmd := c0 + 256 * c1 + 65536 * c2 + 16777216 * c3
      len := toInt32 (l0 + 256 * l1 + 65536 * l2 + 16777216 * l3)
      offset := o0 + 256 * o1 + 65536 * o2 + 16777216 * o3
      set := s0 + 256 * s1 + 65536 * s2 + 16777216 * s3
      magic := m0 + 256 * m1 + 65536 * m2 + 16777216 * m3 }
  | _ => { cmd := 0, len := 0, offset := 0, set := 0, magic := 0 }

/-- send_vendor_cmd (lines 223-339), with the external netlink library
abstracted away: returns the vendor data blob it would transmit
(header then payload, line 283-284) together with the response state produced
by driving the receive loop over the environment-supplied batches. -/
def send_vendor_cmd (cmd : Nat) (is_set : Nat) (payload : List Nat)
    (ret_len : Int) (batches : List (List NlEvent)) : List Nat × iovar_response :=
  (packHdr (mkHdr cmd is_set ret_len) ++ payload, recvLoop batches initResponse)

/-- strlen(iovar) + 1: the name length including its null terminator
(lines 351 and 391). The name is its list of non-null bytes. -/
def nameLen (iovar : List Nat) : Nat := iovar.length + 1

/-- The requested return length of get_iovar_int (line 355):
`int32_t ret_len = name_len > 256 ? name_len + 4 : 256;` with the
implementation-defined wrap of the size_t value into int32_t made explicit. -/
def get_ret_len (iovar : List Nat) : Int :=
  int32ofNat (if nameLen iovar > 256 then nameLen iovar + 4 else 256)

/-- The GET payload: the null-terminated iovar name (line 359). -/
def get_payload (iovar : List Nat) : List Nat := iovar ++ [0]

/-- The header send_vendor_cmd packs for a get_iovar_int request. -/
def get_hdr (iovar : List Nat) : brcmf_vndr_dcmd_hdr :=
  mkHdr BRCMF_C_GET_VAR 0 (get_ret_len iovar)

/-- The decode step of get_iovar_int (lines 368-378): succeed with the first
four response bytes as a little-endian uint32_t when a buffer was delivered
and the recorded length is at least four, otherwise fail with -ENODATA. -/
def get_iovar_decode (resp : iovar_response) : Except Int Nat :=
  match resp.data with
  | some bs => if 4 ≤ resp.len then Except.ok (unle32 bs) else Except.error (-ENODATA)
  | none => Except.error (-ENODATA)

/-- get_iovar_int (lines 348-379): run the transport; a nonzero transport
code is returned as is (lines 362-366), otherwise the response is decoded. -/
def get_iovar_int (iovar : List Nat) (batches : List (List NlEvent)) : Except Int Nat :=
  let resp := (send_vendor_cmd BRCMF_C_GET_VAR 0 (get_payload iovar)
    (get_ret_len iovar) batches).2
  if resp.error ≠ 0 then Except.error resp.error else get_iovar_decode resp

/-- `size_t payload_len = name_len + sizeof(uint32_t);` (line 392). -/
def set_payload_len (iovar : List Nat) : Nat := nameLen iovar + 4

/-- The SET payload (lines 400-402): the null-terminated name immediately
followed by the four little-endian value bytes, no padding. -/
def set_payload (iovar : List Nat) (value : Nat) : List Nat :=
  (iovar ++ [0]) ++ le32 value

/-- The header send_vendor_cmd packs for a set_iovar_int request
(lines 404-406): the requested return length is the payload length. -/
def set_hdr (iovar : List Nat) : brcmf_vndr_dcmd_hdr :=
  mkHdr BRCMF_C_SET_VAR 1 (int32ofNat (set_payload_len iovar))

/-- set_iovar_int (lines 388-417): build the payload, run the transport, and
surface its terminal code verbatim. -/
def set_iovar_int (iovar : List Nat) (value : Nat)
    (batches : List (List NlEvent)) : Int :=
  ((send_vendor_cmd BRCMF_C_SET_VAR 1 (set_payload iovar value)
    (int32ofNat (set_payload_len iovar)) batches).2).error

/-- The byte string "btc_mode" (eight ASCII characters, terminator excluded). -/
def btc_mode : List Nat := [98, 116, 99, 95, 109, 111, 100, 101]

/-- Does the nested attribute list contain a BRCMF_NLATTR_DATA attribute? -/
def hasDataAttr (attrs : List NlAttr) : Bool :=
  (attrs.find? (fun a => a.typ == BRCMF_NLATTR_DATA)).isSome

/-- A message whose processing stores a response buffer: a valid message with
the vendor-data attribute present, a data sub-attribute inside it, and a
successful allocation. -/
def isDataDelivery : NlEvent → Bool
  | NlEvent.valid (some attrs) true => hasDataAttr attrs
  | NlEvent.valid (some _) false => false
  | NlEvent.valid none _ => false
  | NlEvent.error _ => false
  | NlEvent.ack => false
  | NlEvent.finish => false

/-- A message whose processing runs the unconditional
`resp->data = malloc(resp->len)` assignment: a valid message with the
vendor-data attribute present and a data sub-attribute inside, whatever the
allocation outcome. -/
def isDataAttempt : NlEvent → Bool
  | NlEvent.valid (some attrs) _ => hasDataAttr attrs
  | NlEvent.valid none _ => false
  | NlEvent.error _ => false
  | NlEvent.ack => false
  | NlEvent.finish => false

/-- Whether the response buffer is non-NULL after processing the given
messages in order, starting from the NULL initial state: every data attempt
overwrites the buffer with its own malloc outcome (the copied bytes on
success, NULL on failure), and every other message leaves it unchanged. -/
def dataPopulated (es : List NlEvent) : Bool :=
  es.foldl (fun acc e => if isDataAttempt e then isDataDelivery e else acc) false

lemma unle32_take4 (bs : List Nat) : unle32 (bs.take 4) = unle32 bs := by
  match bs with
  | [] => rfl
  | [a] => rfl
  | [a, b] => rfl
  | [a, b, c] => rfl
  | a :: b :: c :: d :: rest => rfl

lemma recvLoopP_stable (batches : List (List NlEvent)) (resp : iovar_response)
    (h : resp.error ≠ -EINPROGRESS) : recvLoopP batches resp = (resp, []) := by
  cases batches with
  | nil => rfl
  | cons b rest => simp [recvLoopP, h]

/-- C4: for every iovar name and both operations, the offset field of the
packed vendor command header equals the fixed header size, 20 bytes, which is
also the length of the packed header image, regardless of name length. -/
theorem c4_offset_eq_header_size (iovar : List Nat) :
    (get_hdr iovar).offset = hdrSize ∧ (set_hdr iovar).offset = hdrSize ∧
    (packHdr (get_hdr iovar)).length = 20 ∧ (packHdr (set_hdr iovar)).length = 20 ∧
    hdrSize = 20 :=
  ⟨rfl, rfl, rfl, rfl, rfl⟩

/-- C6: for every iovar name and value, the payload built by set_iovar_int is
the name, its null terminator, then the value as four little-endian bytes with
no padding, so its length is the name length with terminator plus 4. -/
theorem c6_set_payload_layout (iovar : List Nat) (value : Nat) :
    (set_payload iovar value).length = nameLen iovar + 4 ∧
    (set_payload iovar value).take (nameLen iovar) = iovar ++ [0] ∧
    (set_payload iovar value).drop (nameLen iovar) = le32 value := by
  have hl : (iovar ++ [0]).length = nameLen iovar := by simp [nameLen]
  refine ⟨?_, ?_, ?_⟩
  · simp [set_payload, nameLen, le32]
  · rw [set_payload, ← hl, List.take_left]
  · rw [set_payload, ← hl, List.drop_left]

/-- C7 counterexample: the header packed for write_int("btc_mode", 4) is not
the one the claim states; its len field is the payload length 13, not 29. -/
theorem c7_counterexample :
    set_hdr btc_mode ≠ { cmd := 263, len := 29, offset := 20, set := 1, magic := 0 } ∧
    (set_hdr btc_mode).len = 13 := by decide

/-- C7 (amended): for write_int("btc_mode", 4) the packed header is
cmd 263, len 13 (the payload length 9 + 4), offset 20, set 1, magic 0, and
the payload is the 9-byte name block followed by the bytes 04 00 00 00. -/
theorem c7_amended_btc_mode_scenario :
    set_hdr btc_mode = { cmd := 263, len := 13, offset := 20, set := 1, magic := 0 } ∧
    set_payload btc_mode 4 = btc_mode ++ [0] ++ [4, 0, 0, 0] ∧
    (btc_mode ++ [0]).length = 9 := by decide

/-- C8: packing the 20-byte vendor command header and then unpacking those
bytes yields exactly the original field values, for every choice of valid
field values (unsigned fields below 2 ^ 32, len in the int32_t range). -/
theorem c8_header_roundtrip (c : Nat) (l : Int) (o s m : Nat)
    (h1 : c < 2 ^ 32) (h2 : -2 ^ 31 ≤ l) (h3 : l < 2 ^ 31)
    (h4 : o < 2 ^ 32) (h5 : s < 2 ^ 32) (h6 : m < 2 ^ 32) :
    unpackHdr (packHdr { cmd := c, len := l, offset := o, set := s, magic := m })
      = { cmd := c, len := l, offset := o, set := s, magic := m } := by
  simp only [packHdr, le32, le32i, List.cons_append, List.nil_append, unpackHdr,
    brcmf_vndr_dcmd_hdr.mk.injEq]
  refine ⟨by omega, ?_, by omega, by omega, by omega⟩
  simp only [toInt32]
  split <;> omega

/-- Witness for C8 at a concrete header with a negative len. -/
theorem c8_witness :
    unpackHdr (packHdr { cmd := 262, len := -5, offset := 20, set := 0, magic := 0 })
      = { cmd := 262, len := -5, offset := 20, set := 0, magic := 0 } :=
  c8_header_roundtrip 262 (-5) 20 0 0 (by decide) (by decide) (by decide)
    (by decide) (by decide) (by decide)

lemma get_ret_len_eq (iovar : List Nat) (n : Nat) (h : iovar.length = n) :
    get_ret_len iovar = int32ofNat (if n + 1 > 256 then n + 1 + 4 else 256) := by
  subst h
  rfl

/-- C5 counterexample: the source converts the size_t sizing expression to
int32_t, so for a name of 2 ^ 31 bytes the requested return length wraps to a
negative value, below the claimed floor of 256. -/
theorem c5_counterexample : get_ret_len (List.replicate (2 ^ 31) 97) < 256 := by
  rw [get_ret_len_eq (List.replicate (2 ^ 31) 97) (2 ^ 31) (List.length_replicate _ _)]
  rw [if_pos (by norm_num)]
  unfold int32ofNat toInt32
  rw [Nat.mod_eq_of_lt (by norm_num), if_neg (by norm_num)]
  norm_num

/-- C5 (amended): for every iovar name whose length with terminator plus 4
fits the signed 32-bit range (every name the program can actually receive),
the requested return length is at least 256 and at least the name length with
terminator, and for the 9-byte btc_mode name block it is exactly 256. -/
theorem c5_amended_ret_len_floor (iovar : List Nat) (h : nameLen iovar + 4 < 2 ^ 31) :
    256 ≤ get_ret_len iovar ∧ (nameLen iovar : Int) ≤ get_ret_len iovar ∧
    get_ret_len btc_mode = 256 := by
  have hb : get_ret_len btc_mode = 256 := by decide
  by_cases hc : nameLen iovar > 256
  · have he : get_ret_len iovar = ((nameLen iovar + 4 : Nat) : Int) := by
      simp only [get_ret_len, int32ofNat, toInt32, if_pos hc]
      rw [Nat.mod_eq_of_lt (by omega), if_pos (by omega)]
    refine ⟨?_, ?_, hb⟩ <;> (rw [he]; omega)
  · have he : get_ret_len iovar = 256 := by
      simp only [get_ret_len, int32ofNat, toInt32, if_neg hc]
      norm_num
    exact ⟨by rw [he], by rw [he]; omega, hb⟩

/-- Witness for C5 (amended) at the btc_mode name. -/
theorem c5_amended_witness :
    256 ≤ get_ret_len btc_mode ∧ (nameLen btc_mode : Int) ≤ get_ret_len btc_mode ∧
    get_ret_len btc_mode = 256 :=
  c5_amended_ret_len_floor btc_mode (by decide)

/-- C3: when the transport cycle ends with code zero and delivered a response
buffer, get_iovar_int fails with -ENODATA whenever fewer than 4 bytes were
returned, and succeeds with the first 4 response bytes decoded as a
little-endian unsigned 32-bit integer whenever at least 4 were returned.
The decoded value depends only on the first four bytes (take 4), and the
decoder is a total function, so it never reads past the buffer end. -/
theorem c3_short_fails_long_succeeds (iovar : List Nat)
    (batches : List (List NlEvent)) (bs : List Nat)
    (h0 : (recvLoop batches initResponse).error = 0)
    (h1 : (recvLoop batches initResponse).data = some bs)
    (h2 : (recvLoop batches initResponse).len = bs.length) :
    (bs.length < 4 → get_iovar_int iovar batches = Except.error (-ENODATA)) ∧
    (4 ≤ bs.length → get_iovar_int iovar batches = Except.ok (unle32 (bs.take 4))) := by
  have key : (send_vendor_cmd BRCMF_C_GET_VAR 0 (get_payload iovar)
      (get_ret_len iovar) batches).2 = recvLoop batches initResponse := rfl
  have hif : ¬((recvLoop batches initResponse).error ≠ 0) := by
    rw [h0]; exact fun hne => hne rfl
  constructor
  · intro hlt
    simp only [get_iovar_int, key]
    rw [if_neg hif]
    simp only [get_iovar_decode, h1, h2]
    rw [if_neg (by omega)]
  · intro hge
    simp only [get_iovar_int, key]
    rw [if_neg hif]
    simp only [get_iovar_decode, h1, h2]
    rw [if_pos hge, unle32_take4]

/-- Witness for C3: a 2-byte response fails with -ENODATA, a 5-byte response
succeeds with the little-endian value of its first four bytes. -/
theorem c3_witness :
    get_iovar_int btc_mode
      [[NlEvent.valid (some [{ typ := 2, payload := [1, 2] }]) true, NlEvent.ack]]
      = Except.error (-ENODATA) ∧
    get_iovar_int btc_mode
      [[NlEvent.valid (some [{ typ := 2, payload := [5, 0, 0, 0, 9] }]) true, NlEvent.ack]]
      = Except.ok (unle32 ([5, 0, 0, 0, 9].take 4)) := by
  constructor
  · exact (c3_short_fails_long_succeeds btc_mode _ [1, 2]
      (by decide) (by decide) (by decide)).1 (by decide)
  · exact (c3_short_fails_long_succeeds btc_mode _ [5, 0, 0, 0, 9]
      (by decide) (by decide) (by decide)).2 (by decide)

/-- C10: a get operation that completes with transport success but without any
delivered response buffer (an ack-only completion) returns -ENODATA rather
than success; in the Except embedding no value is produced, which models the
output parameter being left unwritten. -/
theorem c10_ack_only_get_enodata (iovar : List Nat) (batches : List (List NlEvent))
    (h0 : (recvLoop batches initResponse).error = 0)
    (h1 : (recvLoop batches initResponse).data = none) :
    get_iovar_int iovar batches = Except.error (-ENODATA) := by
  have key : (send_vendor_cmd BRCMF_C_GET_VAR 0 (get_payload iovar)
      (get_ret_len iovar) batches).2 = recvLoop batches initResponse := rfl
  have hif : ¬((recvLoop batches initResponse).error ≠ 0) := by
    rw [h0]; exact fun hne => hne rfl
  simp only [get_iovar_int, key]
  rw [if_neg hif]
  simp only [get_iovar_decode, h1]

/-- Witness for C10 at an ack-only receive cycle. -/
theorem c10_witness :
    get_iovar_int btc_mode [[NlEvent.ack]] = Except.error (-ENODATA) :=
  c10_ack_only_get_enodata btc_mode [[NlEvent.ack]] (by decide) (by decide)

lemma copyFirstData_fail_data (attrs : List NlAttr) (resp : iovar_response) :
    (copyFirstData attrs false resp).data
      = if hasDataAttr attrs then none else resp.data := by
  induction attrs with
  | nil => simp [copyFirstData, hasDataAttr, List.find?]
  | cons a rest ih =>
    by_cases h : a.typ = BRCMF_NLATTR_DATA
    · simp [copyFirstData, h, hasDataAttr, List.find?]
    · have hb : (a.typ == BRCMF_NLATTR_DATA) = false := by simp [h]
      simp [copyFirstData, h, hasDataAttr, List.find?, hb, ih]

lemma copyFirstData_find (attrs : List NlAttr) (resp : iovar_response) :
    copyFirstData attrs true resp =
      match attrs.find? (fun a => a.typ == BRCMF_NLATTR_DATA) with
      | some a => { resp with len := a.payload.length, data := some a.payload }
      | none => resp := by
  induction attrs with
  | nil => rfl
  | cons a rest ih =>
    by_cases h : a.typ = BRCMF_NLATTR_DATA
    · simp [copyFirstData, h, List.find?]
    · have hb : (a.typ == BRCMF_NLATTR_DATA) = false := by simp [h]
      simp [copyFirstData, h, List.find?, hb, ih]

lemma handleEvent_data_isSome (e : NlEvent) (resp : iovar_response) :
    (handleEvent e resp).1.data.isSome
      = (if isDataAttempt e then isDataDelivery e else resp.data.isSome) := by
  cases e with
  | error code => simp [handleEvent, error_handler, isDataAttempt]
  | ack => simp [handleEvent, ack_handler, isDataAttempt]
  | finish => simp [handleEvent, finish_handler, isDataAttempt]
  | valid vd ok =>
    cases vd with
    | none => simp [handleEvent, response_handler, isDataAttempt]
    | some attrs =>
      cases ok with
      | false =>
        simp only [handleEvent, response_handler]
        by_cases hf : hasDataAttr attrs
        · simp [copyFirstData_fail_data, isDataAttempt, isDataDelivery, hf]
        · simp [copyFirstData_fail_data, isDataAttempt, isDataDelivery, hf]
      | true =>
        simp only [handleEvent, response_handler]
        rw [copyFirstData_find]
        cases hf : attrs.find? (fun a => a.typ == BRCMF_NLATTR_DATA) with
        | none => simp [isDataAttempt, isDataDelivery, hasDataAttr, hf]
        | some a => simp [isDataAttempt, isDataDelivery, hasDataAttr, hf]

lemma recvBatchP_data (b : List NlEvent) : ∀ resp : iovar_response,
    (recvBatchP b resp).1.data.isSome
      = (recvBatchP b resp).2.foldl
          (fun acc e => if isDataAttempt e then isDataDelivery e else acc)
          resp.data.isSome := by
  induction b with
  | nil => intro resp; simp [recvBatchP]
  | cons e rest ih =>
    intro resp
    have hd := handleEvent_data_isSome e resp
    rcases hc : handleEvent e resp with ⟨r, c⟩
    rw [hc] at hd
    cases c with
    | stop =>
      simp only [recvBatchP, hc]
      simp [hd]
    | skip =>
      simp only [recvBatchP, hc]
      simp [ih r, hd]

lemma recvLoopP_data (batches : List (List NlEvent)) : ∀ resp : iovar_response,
    (recvLoopP batches resp).1.data.isSome
      = (recvLoopP batches resp).2.foldl
          (fun acc e => if isDataAttempt e then isDataDelivery e else acc)
          resp.data.isSome := by
  induction batches with
  | nil => intro resp; simp [recvLoopP]
  | cons b rest ih =>
    intro resp
    by_cases h : resp.error = -EINPROGRESS
    · simp only [recvLoopP, if_pos h]
      simp [ih, recvBatchP_data, List.foldl_append]
    · simp [recvLoopP, h]

lemma foldl_dataStatus_any (es : List NlEvent) : ∀ b : Bool,
    es.foldl (fun acc e => if isDataAttempt e then isDataDelivery e else acc) b = true →
    b = true ∨ es.any isDataDelivery = true := by
  induction es with
  | nil => intro b h; exact Or.inl h
  | cons e rest ih =>
    intro b h
    rw [List.foldl_cons] at h
    rcases ih _ h with h1 | h1
    · by_cases ha : isDataAttempt e = true
      · simp [ha] at h1
        right
        simp [h1]
      · simp [ha] at h1
        exact Or.inl h1
    · right
      simp [h1]

/-- C1 counterexample: within one receive batch, a valid-data event that
records an out-of-memory terminal state is followed by an ack whose handler
unconditionally overwrites the error with success, so the cycle ends with
error code zero even though a data event had recorded -ENOMEM. -/
theorem c1_counterexample :
    (handleEvent (NlEvent.valid (some [{ typ := 2, payload := [1, 2, 3, 4] }]) false)
      initResponse).1.error = -ENOMEM ∧
    (recvBatch [NlEvent.valid (some [{ typ := 2, payload := [1, 2, 3, 4] }]) false,
      NlEvent.ack] initResponse).error = 0 := by
  decide

/-- C1 (amended): the ack handler unconditionally sets the error code to
zero. A terminal state recorded by a data event protects against a later ack
only across pump iterations, because the receive loop stops pumping once the
error code leaves the in-progress state; within a single receive batch a
later ack does overwrite a previously recorded out-of-memory error. -/
theorem c1_amended_ack_unconditional (resp : iovar_response)
    (batches : List (List NlEvent)) (h : resp.error = -ENOMEM) :
    (ack_handler resp).1.error = 0 ∧ recvLoop batches resp = resp := by
  refine ⟨rfl, ?_⟩
  unfold recvLoop
  rw [recvLoopP_stable batches resp (by rw [h]; decide)]

/-- Witness for C1 (amended) at a concrete out-of-memory response state. -/
theorem c1_amended_witness :
    (ack_handler { data := none, len := 0, error := -ENOMEM }).1.error = 0 ∧
    recvLoop [[NlEvent.ack]] { data := none, len := 0, error := -ENOMEM }
      = { data := none, len := 0, error := -ENOMEM } :=
  c1_amended_ack_unconditional { data := none, len := 0, error := -ENOMEM }
    [[NlEvent.ack]] rfl

/-- C2 counterexample: a cycle where a valid-data event delivers a buffer and
an error event then ends the cycle with code -5: the response bytes are
populated although the cycle did not end with success, refuting the claimed
equivalence as stated. -/
theorem c2_counterexample :
    ((send_vendor_cmd BRCMF_C_GET_VAR 0 [0] 256
      [[NlEvent.valid (some [{ typ := 2, payload := [1, 2, 3, 4] }]) true,
        NlEvent.error (-5)]]).2.data = some [1, 2, 3, 4]) ∧
    ((send_vendor_cmd BRCMF_C_GET_VAR 0 [0] 256
      [[NlEvent.valid (some [{ typ := 2, payload := [1, 2, 3, 4] }]) true,
        NlEvent.error (-5)]]).2.error = -5) := by
  decide

/-- C2 (amended): once the transport observes a terminal error code, further
pumping leaves the response unchanged, so a single terminal code is produced.
The response byte buffer is populated if and only if the most recently
processed valid-data event carrying a data sub-attribute had a successful
allocation - each data event overwrites the buffer with its own malloc
outcome, so a later allocation failure clears a previously delivered buffer -
and in particular the buffer is populated only if some successful data
delivery was processed, whether or not the cycle then ends with success. -/
theorem c2_amended_terminal_and_data (cmd is_set : Nat) (payload : List Nat)
    (ret_len : Int) (batches extra : List (List NlEvent))
    (h : (send_vendor_cmd cmd is_set payload ret_len batches).2.error ≠ -EINPROGRESS) :
    recvLoop extra (send_vendor_cmd cmd is_set payload ret_len batches).2
      = (send_vendor_cmd cmd is_set payload ret_len batches).2 ∧
    ((send_vendor_cmd cmd is_set payload ret_len batches).2.data.isSome
      = dataPopulated (recvLoopP batches initResponse).2) ∧
    ((send_vendor_cmd cmd is_set payload ret_len batches).2.data.isSome = true →
      (recvLoopP batches initResponse).2.any isDataDelivery = true) := by
  have key : (send_vendor_cmd cmd is_set payload ret_len batches).2
      = (recvLoopP batches initResponse).1 := rfl
  have hdp : (recvLoopP batches initResponse).1.data.isSome
      = dataPopulated (recvLoopP batches initResponse).2 := by
    simpa [initResponse, dataPopulated] using recvLoopP_data batches initResponse
  refine ⟨?_, ?_, ?_⟩
  · rw [key] at h ⊢
    unfold recvLoop
    rw [recvLoopP_stable extra _ h]
  · rw [key, hdp]
  · rw [key, hdp]
    intro hpop
    rcases foldl_dataStatus_any (recvLoopP batches initResponse).2 false
      (by simpa [dataPopulated] using hpop) with h1 | h1
    · exact absurd h1 Bool.false_ne_true
    · exact h1

/-- Witness for C2 (amended): a batch where a successful data delivery is
followed by a data message whose allocation fails and then an ack, with a
late error batch afterwards; the failed allocation clears the buffer, the
cycle ends with success and an unpopulated buffer, and the terminal state
absorbs further pumping. -/
theorem c2_amended_witness :
    recvLoop [[NlEvent.error (-1)]]
      (send_vendor_cmd 262 0 [0] 256
        [[NlEvent.valid (some [{ typ := 2, payload := [1, 2, 3, 4] }]) true,
          NlEvent.valid (some [{ typ := 2, payload := [9] }]) false,
          NlEvent.ack]]).2
      = (send_vendor_cmd 262 0 [0] 256
        [[NlEvent.valid (some [{ typ := 2, payload := [1, 2, 3, 4] }]) true,
          NlEvent.valid (some [{ typ := 2, payload := [9] }]) false,
          NlEvent.ack]]).2 ∧
    ((send_vendor_cmd 262 0 [0] 256
        [[NlEvent.valid (some [{ typ := 2, payload := [1, 2, 3, 4] }]) true,
          NlEvent.valid (some [{ typ := 2, payload := [9] }]) false,
          NlEvent.ack]]).2.data.isSome
      = dataPopulated (recvLoopP
          [[NlEvent.valid (some [{ typ := 2, payload := [1, 2, 3, 4] }]) true,
            NlEvent.valid (some [{ typ := 2, payload := [9] }]) false,
            NlEvent.ack]] initResponse).2) ∧
    ((send_vendor_cmd 262 0 [0] 256
        [[NlEvent.valid (some [{ typ := 2, payload := [1, 2, 3, 4] }]) true,
          NlEvent.valid (some [{ typ := 2, payload := [9] }]) false,
          NlEvent.ack]]).2.data.isSome = true →
      (recvLoopP
          [[NlEvent.valid (some [{ typ := 2, payload := [1, 2, 3, 4] }]) true,
            NlEvent.valid (some [{ typ := 2, payload := [9] }]) false,
            NlEvent.ack]] initResponse).2.any isDataDelivery = true) :=
  c2_amended_terminal_and_data 262 0 [0] 256
    [[NlEvent.valid (some [{ typ := 2, payload := [1, 2, 3, 4] }]) true,
      NlEvent.valid (some [{ typ := 2, payload := [9] }]) false,
      NlEvent.ack]]
    [[NlEvent.error (-1)]] (by decide)

lemma copyFirstData_first (post : List NlAttr) (a : NlAttr) (resp : iovar_response)
    (ha : a.typ = BRCMF_NLATTR_DATA) :
    ∀ pre : List NlAttr, (∀ b ∈ pre, b.typ ≠ BRCMF_NLATTR_DATA) →
      copyFirstData (pre ++ a :: post) true resp
        = { resp with len := a.payload.length, data := some a.payload } := by
  intro pre
  induction pre with
  | nil =>
    intro _
    simp [copyFirstData, ha]
  | cons b rest ih =>
    intro hpre
    have hb : b.typ ≠ BRCMF_NLATTR_DATA := hpre b (List.mem_cons_self b rest)
    simp only [List.cons_append, copyFirstData, if_neg hb]
    exact ih (fun x hx => hpre x (List.mem_cons_of_mem b hx))

/-- C9: for a valid-data event whose nested vendor-data attribute holds
several data sub-attributes, the response handler copies the bytes of only
the first data sub-attribute in attribute order and ignores every later
sub-attribute of the message, whatever it contains. -/
theorem c9_first_data_attr_only (pre post : List NlAttr) (a : NlAttr)
    (resp : iovar_response)
    (hpre : ∀ b ∈ pre, b.typ ≠ BRCMF_NLATTR_DATA) (ha : a.typ = BRCMF_NLATTR_DATA) :
    response_handler (some (pre ++ a :: post)) true resp
      = ({ resp with len := a.payload.length, data := some a.payload }, CbRet.skip) := by
  simp only [response_handler]
  rw [copyFirstData_first post a resp ha pre hpre]

/-- Witness for C9: the second data sub-attribute with bytes 7 7 7 is ignored;
only the first data sub-attribute with bytes 1 2 is copied. -/
theorem c9_witness :
    response_handler (some [{ typ := 1, payload := [9] },
      { typ := 2, payload := [1, 2] }, { typ := 2, payload := [7, 7, 7] }]) true
      initResponse
      = ({ initResponse with len := 2, data := some [1, 2] }, CbRet.skip) := by
  have h := c9_first_data_attr_only [{ typ := 1, payload := [9] }]
    [{ typ := 2, payload := [7, 7, 7] }] { typ := 2, payload := [1, 2] }
    initResponse (by decide) rfl
  simpa using h

end BrcmfIovar
